import Mathlib

/-!
Shallow embedding of the reverse-mode automatic-differentiation engine of
`engine.py`.  Dense numeric arrays are modelled as row-major arrays of
rationals (every value any claim evaluates is rational); the numpy calls the
engine makes are modelled at the generality the engine exercises; the
`Tensor` computation graph is an arena of nodes addressed by index, with the
backward closures represented as tagged rules dispatched by one apply
function, and the stateful methods (`backward`, `zero_grad`, `step`) as
functions from arena to arena.  Operations that can raise in Python return
`Option`/`Except`.
-/

attribute [local semireducible] Rat.add Rat.mul Rat.sub Rat.inv Rat.ofScientific

/-- A dense n-dimensional array in row-major order, modelling `np.ndarray`. -/
structure NDArray where
  shape : List Nat
  data : List ℚ
deriving DecidableEq, Repr

/-- Row-major flat position of a multi-index inside a shape. -/
def flatIndex : List Nat → List Nat → Nat
  | _ :: ss, i :: is => i * ss.prod + flatIndex ss is
  | _, _ => 0

/-- Element of an array at a multi-index (0 outside the carrier;
only in-range indices are ever used). -/
def NDArray.get (a : NDArray) (idx : List Nat) : ℚ :=
  a.data.getD (flatIndex a.shape idx) 0

/-- All multi-indices of a shape, in row-major order. -/
def allIdx : List Nat → List (List Nat)
  | [] => [[]]
  | d :: ds =>
    let rest := allIdx ds
    (List.range d).foldr (fun i acc => rest.map (fun ix => i :: ix) ++ acc) []

/-- Array of a given shape with the entry at each multi-index given by `f`. -/
def NDArray.ofFn (shape : List Nat) (f : List Nat → ℚ) : NDArray :=
  ⟨shape, (allIdx shape).map f⟩

/-- `np.zeros(shape)`. -/
def npZeros (s : List Nat) : NDArray := NDArray.ofFn s (fun _ => 0)

/-- `np.ones(shape)`. -/
def npOnes (s : List Nat) : NDArray := NDArray.ofFn s (fun _ => 1)

/-- Broadcast two aligned dimensions (equal, or one of them 1). -/
def bdim (a b : Nat) : Option Nat :=
  if a = b then some a else if a = 1 then some b else if b = 1 then some a
  else Option.none

/-- Broadcast two shapes given reversed (aligned from the right). -/
def bcastRev : List Nat → List Nat → Option (List Nat)
  | [], t => some t
  | s, [] => some s
  | a :: s, b :: t => do
    let d ← bdim a b
    let r ← bcastRev s t
    some (d :: r)

/-- Standard array-broadcasting of two shapes (`none` when incompatible,
where numpy raises). -/
def broadcastShapes (s t : List Nat) : Option (List Nat) :=
  (bcastRev s.reverse t.reverse).map List.reverse

/-- Operand multi-index corresponding to a result multi-index under
broadcasting: drop the leading padded axes and clamp size-1 axes to 0. -/
def bIndex (s : List Nat) (ix : List Nat) : List Nat :=
  let ix' := ix.drop (ix.length - s.length)
  (s.zip ix').map (fun p => if p.1 = 1 then 0 else p.2)

/-- Elementwise binary numpy operation with broadcasting. -/
def ewise (f : ℚ → ℚ → ℚ) (a b : NDArray) : Option NDArray :=
  (broadcastShapes a.shape b.shape).map fun sh =>
    NDArray.ofFn sh fun ix =>
      f (a.get (bIndex a.shape ix)) (b.get (bIndex b.shape ix))

/-- `np.add`. -/
def npAdd (a b : NDArray) : Option NDArray := ewise (· + ·) a b

/-- `np.multiply`. -/
def npMul (a b : NDArray) : Option NDArray := ewise (· * ·) a b

/-- In-place `a += b`: the right operand must broadcast to `a`'s shape
without enlarging it (numpy raises otherwise). -/
def NDArray.iadd (a b : NDArray) : Option NDArray :=
  match npAdd a b with
  | some c => if c.shape = a.shape then some c else Option.none
  | _ => Option.none

/-- In-place `a -= b` under the same broadcasting rule as `iadd`. -/
def NDArray.isub (a b : NDArray) : Option NDArray :=
  match ewise (· - ·) a b with
  | some c => if c.shape = a.shape then some c else Option.none
  | _ => Option.none

/-- Scalar times array, `c * a`. -/
def npScale (c : ℚ) (a : NDArray) : NDArray :=
  ⟨a.shape, a.data.map (fun x => c * x)⟩

/-- Result shape of `np.sum` over a list of axes. -/
def sumShape (s : List Nat) (axes : List Nat) (keepdims : Bool) : List Nat :=
  if keepdims then s.enum.map (fun p => if axes.contains p.1 then 1 else p.2)
  else (s.enum.filter (fun p => !(axes.contains p.1))).map (fun p => p.2)

/-- Projection of a source multi-index onto the result of `np.sum`. -/
def projIdx (axes : List Nat) (keepdims : Bool) (ix : List Nat) : List Nat :=
  if keepdims then ix.enum.map (fun p => if axes.contains p.1 then 0 else p.2)
  else (ix.enum.filter (fun p => !(axes.contains p.1))).map (fun p => p.2)

/-- `np.sum(a, axis=tuple(axes), keepdims=keepdims)`. -/
def npSum (a : NDArray) (axes : List Nat) (keepdims : Bool) : NDArray :=
  NDArray.ofFn (sumShape a.shape axes keepdims) fun jx =>
    (((allIdx a.shape).filter (fun ix => projIdx axes keepdims ix = jx)).map
      a.get).sum

/-- `np.sum(a)` over all axes: numpy returns a scalar, modelled as a 0-d
array. -/
def npSumAll (a : NDArray) : NDArray := ⟨[], [a.data.sum]⟩

/-- `np.matmul` on the 2-D case, the one the engine exercises
(`none` where numpy would raise). -/
def npMatmul (a b : NDArray) : Option NDArray :=
  match a.shape, b.shape with
  | [m, k], [k2, n] =>
    if k = k2 then
      some (NDArray.ofFn [m, n] fun ix =>
        match ix with
        | [i, j] => ((List.range k).map (fun l => a.get [i, l] * b.get [l, j])).sum
        | _ => 0)
    else Option.none
  | _, _ => Option.none

/-- `a.T`: reverse the axes. -/
def NDArray.transpose (a : NDArray) : NDArray :=
  NDArray.ofFn a.shape.reverse fun ix => a.get ix.reverse

/-- `np.stack((a, b), axis=axis)` for two arrays (numpy raises when the
shapes differ or the axis is out of range). -/
def npStack (a b : NDArray) (axis : Nat) : Option NDArray :=
  if a.shape = b.shape ∧ axis ≤ a.shape.length then
    some (NDArray.ofFn (a.shape.take axis ++ 2 :: a.shape.drop axis) fun ix =>
      if ix.getD axis 0 = 0 then a.get (ix.take axis ++ ix.drop (axis + 1))
      else b.get (ix.take axis ++ ix.drop (axis + 1)))
  else Option.none

/-- Python indexing `a[i]` on an array of rank at least one: the slice at
index `i` along axis 0. -/
def npIndex0 (a : NDArray) (i : Nat) : Option NDArray :=
  match a.shape with
  | d :: rest =>
    if i < d then some (NDArray.ofFn rest fun ix => a.get (i :: ix))
    else Option.none
  | [] => Option.none

/-- `k + a` for a Python int `k` and an array `a` (numpy promotes the
scalar). -/
def addConstInt (k : Int) (a : NDArray) : NDArray :=
  ⟨a.shape, a.data.map (fun x => (k : ℚ) + x)⟩

/-- Elementwise integer power `a ** n`. -/
def npPowI (a : NDArray) (n : Int) : NDArray :=
  ⟨a.shape, a.data.map (fun x => x ^ n)⟩

/-- Elementwise power with a rational exponent.  The engine only ever
evaluates integral exponents (`-1` from division, small test exponents);
at a non-integral exponent the true value is irrational and no claim
evaluates it, so those entries are mapped to 0. -/
def npPowQ (a : NDArray) (e : ℚ) : NDArray :=
  if e.den = 1 then npPowI a e.num else ⟨a.shape, a.data.map (fun _ => 0)⟩

/-- `reshape_gradient` of `engine.py`: reduce an upstream gradient to a
target shape, undoing broadcasting.  Returns `none` where the Python code
fails to terminate (the `while` padding loop runs forever when the target
rank exceeds the gradient rank). -/
def reshape_gradient (gradient : NDArray) (target_shape : List Nat) :
    Option NDArray :=
  if gradient.shape = target_shape then some gradient
  else if target_shape = [] then some (npSumAll gradient)
  else if gradient.shape.length < target_shape.length then Option.none
  else
    let pad := gradient.shape.length - target_shape.length
    let padded := List.replicate pad 1 ++ target_shape
    let keepdims := pad = 0
    let broadcast_axes :=
      ((gradient.shape.zip padded).enum.filter
        (fun p => p.2.2 == 1 && p.2.1 != 1)).map (fun p => p.1)
    some (npSum gradient broadcast_axes keepdims)

/-- A value a Python variable of the engine may hold where the code
branches on its type. -/
inductive PyObj
  | int (n : Int)
  | float (q : ℚ)
  | ndarray (a : NDArray)
  | tensor (i : Nat)
  | str (s : String)
deriving DecidableEq

/-- The engine's error taxonomy: the eagerly raised argument check
(`assert` in the source, "InvalidArgument" in the design). -/
inductive EngineError
  | invalidArgument
deriving DecidableEq

/-- Nodes are addressed by their index in the arena; Python reference
identity becomes index identity. -/
abbrev NodeId := Nat

/-- The gradient attribute: normally an `np.ndarray`, but `zero_grad`
rebinds it to the plain Python int `0`. -/
inductive GradVal
  | int (n : Int)
  | arr (a : NDArray)
deriving DecidableEq

/-- The backward closure stored on a node, as a tagged rule: each
constructor records exactly the node references the Python closure
captures (operand data is re-read from the arena when the rule runs,
as the closure reads the live objects). -/
inductive BackRule
  | backNone
  | backAdd (s o : NodeId)
  | backMul (s o : NodeId)
  | backMatmul (s o : NodeId)
  | backPow (s : NodeId) (e : ℚ)
  | backSum (s : NodeId)
  | backStack (s o : NodeId)
  | backTransp (s : NodeId)
deriving DecidableEq

/-- A `Tensor` object of `engine.py` (the field `grad_divisor`, set to
`None` and never read, is omitted). -/
structure Node where
  data : NDArray
  label : String
  grad : GradVal
  req_grad : Bool
  is_weight : Bool
  prev : List NodeId
  op : String
  rule : BackRule
deriving DecidableEq

/-- The arena of constructed Tensor objects. -/
abbrev Graph := List Node

def dfltNode : Node := ⟨⟨[], []⟩, "", .int 0, false, false, [], "", .backNone⟩

def nodeAt (g : Graph) (i : NodeId) : Node := g.getD i dfltNode

def updNode (g : Graph) (i : NodeId) (f : Node → Node) : Graph :=
  g.set i (f (nodeAt g i))

def setNodeGrad (n : Node) (v : GradVal) : Node :=
  ⟨n.data, n.label, v, n.req_grad, n.is_weight, n.prev, n.op, n.rule⟩

def setNodeData (n : Node) (d : NDArray) : Node :=
  ⟨d, n.label, n.grad, n.req_grad, n.is_weight, n.prev, n.op, n.rule⟩

def withRule (n : Node) (r : BackRule) : Node :=
  ⟨n.data, n.label, n.grad, n.req_grad, n.is_weight, n.prev, n.op, r⟩

/-- `Tensor.__init__`: data as given, gradient `np.zeros(data.shape)`,
parents de-duplicated as Python's `set(_parent)`, backward rule the
no-op `back_none`. -/
def Tensor.init (data : NDArray) (_parent : List NodeId) (_op : String)
    (label : String) (req_grad : Bool) (is_weight : Bool) : Node :=
  ⟨data, label, .arr (npZeros data.shape), req_grad, is_weight,
    _parent.dedup, _op, .backNone⟩

/-- `set((self, other))` for the parent pair of a binary operation. -/
def pySetPair (a b : NodeId) : List NodeId := if a = b then [a] else [a, b]

/-- `np.array(x)` applied to the raw operand kinds the engine promotes. -/
def toNDArray : PyObj → Option NDArray
  | .int n => some ⟨[], [(n : ℚ)]⟩
  | .float q => some ⟨[], [q]⟩
  | .ndarray a => some a
  | _ => Option.none

/-- `other = other if isinstance(other, Tensor) else Tensor(other)`:
promote a raw operand to a constant node (no parents, not trainable). -/
def ensureTensor (g : Graph) (other : PyObj) : Option (Graph × NodeId) :=
  match other with
  | .tensor i => some (g, i)
  | _ => (toNDArray other).map fun a =>
      (g ++ [Tensor.init a [] "" "" false false], g.length)

/-- `Tensor.__add__`: forward `np.add` with broadcasting, parents
`(self, other)`, backward rule `backAdd`. -/
def Tensor.add (g : Graph) (self : NodeId) (other : PyObj) : Option Graph :=
  match ensureTensor g other with
  | some (g, o) =>
    match npAdd (nodeAt g self).data (nodeAt g o).data with
    | some v =>
      some (g ++ [withRule (Tensor.init v (pySetPair self o) "+" "" false false)
        (.backAdd self o)])
    | _ => Option.none
  | _ => Option.none

/-- `Tensor.__mul__`: forward `np.multiply`, parents `(self, other)`,
backward rule `backMul`. -/
def Tensor.mul (g : Graph) (self : NodeId) (other : PyObj) : Option Graph :=
  match ensureTensor g other with
  | some (g, o) =>
    match npMul (nodeAt g self).data (nodeAt g o).data with
    | some v =>
      some (g ++ [withRule (Tensor.init v (pySetPair self o) "*" "" false false)
        (.backMul self o)])
    | _ => Option.none
  | _ => Option.none

/-- `Tensor.matmul`: the output node is constructed as
`Tensor(np.matmul(self.data, other.data))` — with the default empty
`_parent` tuple and empty op tag — and then given the `backMatmul` rule. -/
def Tensor.matmul (g : Graph) (self : NodeId) (other : PyObj) : Option Graph :=
  match ensureTensor g other with
  | some (g, o) =>
    match npMatmul (nodeAt g self).data (nodeAt g o).data with
    | some v =>
      some (g ++ [withRule (Tensor.init v [] "" "" false false)
        (.backMatmul self o)])
    | _ => Option.none
  | _ => Option.none

/-- `Tensor.__pow__`: `assert isinstance(other, (int, float))` raised
before any node is built, then forward `np.power(self.data, other)` with
parent `(self,)` and the `backPow` rule. -/
def Tensor.pow (g : Graph) (self : NodeId) (other : PyObj) :
    Except EngineError Graph :=
  match other with
  | .int n =>
    .ok (g ++ [withRule
      (Tensor.init (npPowI (nodeAt g self).data n) [self]
        ("**" ++ toString n) "" false false) (.backPow self (n : ℚ))])
  | .float q =>
    .ok (g ++ [withRule
      (Tensor.init (npPowQ (nodeAt g self).data q) [self]
        ("**" ++ toString q.num) "" false false) (.backPow self q)])
  | _ => .error .invalidArgument

/-- `Tensor.__rpow__` evaluated with an explicit recursion budget.  The
body is `return other ** self`; for a plain int or float left operand,
Python evaluates `other ** self` by first calling the left type's
`__pow__`, which returns `NotImplemented` for a `Tensor` right operand,
and then falls back to `Tensor.__rpow__(self, other)` — this very method
— so the call re-enters itself.  Exhausting the budget models Python's
`RecursionError`; a left operand of another kind never dispatches here
and is not modelled. -/
def rpowEval : Nat → PyObj → NodeId → Option PyObj
  | 0, _, _ => Option.none
  | fuel + 1, other, self =>
    match other with
    | .int n => rpowEval fuel (.int n) self
    | .float q => rpowEval fuel (.float q) self
    | _ => Option.none

/-- `np.sum(self.data, axis=axis)` for the `axis` arguments `Tensor.sum`
accepts: `None` sums all axes to a scalar, an integer sums that axis
away. -/
def npSumAxis (a : NDArray) (axis : Option Nat) : Option NDArray :=
  match axis with
  | Option.none => some (npSumAll a)
  | some k => if k < a.shape.length then some (npSum a [k] false) else Option.none

/-- `Tensor.sum`: forward reduces, parent `(self,)`, rule `backSum`. -/
def Tensor.sum (g : Graph) (self : NodeId) (axis : Option Nat) : Option Graph :=
  match npSumAxis (nodeAt g self).data axis with
  | some v =>
    some (g ++ [withRule (Tensor.init v [self] "sum" "" false false)
      (.backSum self)])
  | _ => Option.none

/-- `Tensor.stack`: forward `np.stack((self.data, other.data), axis)`,
parents `(self, other)`, rule `backStack`. -/
def Tensor.stack (g : Graph) (self : NodeId) (other : PyObj) (axis : Nat) :
    Option Graph :=
  match ensureTensor g other with
  | some (g, o) =>
    match npStack (nodeAt g self).data (nodeAt g o).data axis with
    | some v =>
      some (g ++ [withRule (Tensor.init v (pySetPair self o) "stack" "" false false)
        (.backStack self o)])
    | _ => Option.none
  | _ => Option.none

/-- `Tensor.T`: forward transpose, parent `(self,)`, rule `backTransp`. -/
def Tensor.transp (g : Graph) (self : NodeId) : Graph :=
  g ++ [withRule (Tensor.init (nodeAt g self).data.transpose [self] "T" "" false false)
    (.backTransp self)]

/-- The call-time validation of `Tensor.cross_entropy_loss`:
`assert isinstance(target, np.ndarray) and len(target.shape) == 1`.
It runs before any graph node is built; the remainder of the method
(softmax forward value and its backward rule) is transcendental
arithmetic no claim evaluates and is not modelled. -/
def ceAssert (target : PyObj) : Except EngineError Unit :=
  match target with
  | .ndarray a => if a.shape.length = 1 then .ok () else .error .invalidArgument
  | _ => .error .invalidArgument

/-- The recursive `build_topo` of `Tensor._traverse_children`: mark the
node visited, recurse into its parents, then append the node.  Python's
recursion is unbounded; here a fuel argument bounds it, and a budget of
`g.length + 1` always suffices because every path of unvisited nodes is
injective, so no deeper call chain can arise. -/
def buildTopo (g : Graph) : Nat → List NodeId → List NodeId → NodeId →
    (List NodeId × List NodeId)
  | 0, visited, topo, _ => (visited, topo)
  | fuel + 1, visited, topo, v =>
    if v ∈ visited then (visited, topo)
    else
      let acc := (nodeAt g v).prev.foldl
        (fun p c => buildTopo g fuel p.1 p.2 c) (v :: visited, topo)
      (acc.1, acc.2 ++ [v])

/-- `Tensor._traverse_children`: the DFS topological order of the node
and its ancestors, parents before dependents, the node itself last. -/
def traverseChildren (g : Graph) (self : NodeId) : List NodeId :=
  (buildTopo g (g.length + 1) [] [] self).2

/-- Read a gradient that the code is about to use as an `np.ndarray`
(`none` models the Python exception when it is not one). -/
def asArr : GradVal → Option NDArray
  | .arr a => some a
  | _ => Option.none

/-- `node.grad += x` with `x` an array: in-place add when the gradient is
an array, numpy scalar promotion `0 + x` when `zero_grad` left it as the
Python int 0. -/
def gradIadd (g : Graph) (i : NodeId) (x : NDArray) : Option Graph :=
  match (nodeAt g i).grad with
  | .arr a => (a.iadd x).map fun c => updNode g i fun n => setNodeGrad n (.arr c)
  | .int k => some (updNode g i fun n => setNodeGrad n (.arr (addConstInt k x)))

/-- Run the backward closure stored on node `out`, exactly the statement
sequence of the corresponding `_backward` in `engine.py` (each statement
re-reads the live objects, and a failing numpy operation aborts the
whole call). -/
def applyRule (g : Graph) (out : NodeId) : Option Graph :=
  match (nodeAt g out).rule with
  | .backNone => some g
  | .backAdd s o => do
    let og ← asArr (nodeAt g out).grad
    let r ← reshape_gradient og (nodeAt g s).data.shape
    let g ← gradIadd g s r
    let og ← asArr (nodeAt g out).grad
    let r ← reshape_gradient og (nodeAt g o).data.shape
    gradIadd g o r
  | .backMul s o => do
    let og ← asArr (nodeAt g out).grad
    let p ← npMul (nodeAt g o).data og
    let r ← reshape_gradient p (nodeAt g s).data.shape
    let g ← gradIadd g s r
    let og ← asArr (nodeAt g out).grad
    let p ← npMul (nodeAt g s).data og
    let r ← reshape_gradient p (nodeAt g o).data.shape
    gradIadd g o r
  | .backMatmul s o => do
    let og ← asArr (nodeAt g out).grad
    let m ← npMatmul og (nodeAt g o).data.transpose
    let g ← gradIadd g s m
    let og ← asArr (nodeAt g out).grad
    let m ← npMatmul (nodeAt g s).data.transpose og
    gradIadd g o m
  | .backPow s e => do
    let og ← asArr (nodeAt g out).grad
    let p ← npMul (npScale e (npPowQ (nodeAt g s).data (e - 1))) og
    gradIadd g s p
  | .backSum s => do
    let og ← asArr (nodeAt g out).grad
    gradIadd g s og
  | .backStack s o => do
    let og ← asArr (nodeAt g out).grad
    let s0 ← npIndex0 og 0
    let g ← gradIadd g s s0
    let og ← asArr (nodeAt g out).grad
    let s1 ← npIndex0 og 1
    gradIadd g o s1
  | .backTransp s => do
    let og ← asArr (nodeAt g out).grad
    gradIadd g s og.transpose

/-- `Tensor.backward`: set the node's gradient to
`np.ones(self.data.shape)`, then run each traversed node's backward rule
in reversed topological order. -/
def Tensor.backward (g : Graph) (self : NodeId) : Option Graph :=
  let topo := traverseChildren g self
  let g := updNode g self fun n => setNodeGrad n (.arr (npOnes n.data.shape))
  topo.reverse.foldlM applyRule g

/-- `Tensor.zero_grad`: prepend `self` to the traversal (which already
contains it) and rebind every listed node's gradient to the Python int
`0`. -/
def Tensor.zero_grad (g : Graph) (self : NodeId) : Graph :=
  let topo := self :: traverseChildren g self
  topo.reverse.foldl (fun g i => updNode g i fun n => setNodeGrad n (.int 0)) g

/-- `node.data -= node.grad * learning_rate` for one traversed node. -/
def stepUpdate (d : NDArray) (gv : GradVal) (lr : ℚ) : Option NDArray :=
  match gv with
  | .arr a => d.isub (npScale lr a)
  | .int n => some ⟨d.shape, d.data.map (fun x => x - (n : ℚ) * lr)⟩

/-- `Tensor.step`: prepend `self` to the traversal (which already
contains it) and update the data of every listed node flagged
`req_grad`. -/
def Tensor.step (g : Graph) (self : NodeId) (learning_rate : ℚ) : Option Graph :=
  let topo := self :: traverseChildren g self
  topo.reverse.foldlM (fun g i =>
    if (nodeAt g i).req_grad then
      (stepUpdate (nodeAt g i).data (nodeAt g i).grad learning_rate).map fun d =>
        updNode g i fun n => setNodeData n d
    else some g) g

/-! ### Definitions taken from the claim wording, for comparison -/

/-- From the claim wording of C4: the slice of an array at index `i`
along axis `axis` (numpy's `np.take(a, i, axis)`). -/
def takeAlongAxis (a : NDArray) (axis i : Nat) : Option NDArray :=
  if axis < a.shape.length ∧ i < a.shape.getD axis 0 then
    some (NDArray.ofFn (a.shape.take axis ++ a.shape.drop (axis + 1)) fun ix =>
      a.get (ix.take axis ++ i :: ix.drop axis))
  else Option.none

/-- From the claim wording of C9: a "plain numeric scalar" is a Python
`int` or `float`. -/
def isPlainScalar : PyObj → Bool
  | .int _ => true
  | .float _ => true
  | _ => false

/-- From the claim wording of C9: a "1-D index array" is a rank-1 numpy
array whose entries are integers (class indices). -/
def isIndexArray : PyObj → Bool
  | .ndarray a => a.shape.length == 1 && a.data.all (fun q => q.den == 1)
  | _ => false

/-- The check the source actually performs in `cross_entropy_loss`: a
rank-1 numpy array, with no condition on the entries. -/
def is1DArray : PyObj → Bool
  | .ndarray a => a.shape.length == 1
  | _ => false

/-! ### Concrete scenarios used by the claims -/

/-- `np.array(q)`: a 0-d array holding one scalar. -/
def qscalar (q : ℚ) : NDArray := ⟨[], [q]⟩

/-- A single trainable leaf holding a 0-d value. -/
def leafScalar (q : ℚ) : Graph := [Tensor.init (qscalar q) [] "" "" true false]

/-- C1: `a = Tensor([[2.0]], req_grad=True); b = Tensor([[3.0]]); c = a.matmul(b)`. -/
def c1Graph : Option Graph :=
  Tensor.matmul [Tensor.init ⟨[1, 1], [2]⟩ [] "" "" true false,
    Tensor.init ⟨[1, 1], [3]⟩ [] "" "" false false] 0 (.tensor 1)

/-- C3: `x = Tensor([1.0, 2.0], req_grad=True)`. -/
def c3Graph : Graph := [Tensor.init ⟨[2], [1, 2]⟩ [] "" "" true false]

/-- C4: `a = Tensor([5.,6.]); b = Tensor([7.,8.]); s = a.stack(b, axis=1)`,
with the upstream gradient of `s` set to `[[1,2],[3,4]]` as a backward
pass would leave it. -/
def c4Seeded : Option Graph :=
  (Tensor.stack [Tensor.init ⟨[2], [5, 6]⟩ [] "" "" true false,
      Tensor.init ⟨[2], [7, 8]⟩ [] "" "" true false] 0 (.tensor 1) 1).map
    fun g => updNode g 2 fun n => setNodeGrad n (.arr ⟨[2, 2], [1, 2, 3, 4]⟩)

/-- C5: `x = Tensor(np.ones((2,3)), req_grad=True)`. -/
def c5X : Graph := [Tensor.init ⟨[2, 3], [1, 1, 1, 1, 1, 1]⟩ [] "" "" true false]

/-- C8: `x = Tensor(3.0, req_grad=True); y = x + x`. -/
def c8Add : Option Graph := Tensor.add (leafScalar 3) 0 (.tensor 0)

/-- C8: `x = Tensor(2.0, req_grad=True); y = x * x`. -/
def c8Mul : Option Graph := Tensor.mul (leafScalar 2) 0 (.tensor 0)

/-- C10: `x = Tensor(3.0, req_grad=True); y = x + x; z = y + y`. -/
def c10Graph : Option Graph := do
  let g ← Tensor.add (leafScalar 3) 0 (.tensor 0)
  Tensor.add g 1 (.tensor 1)

/-- C10: one backward pass from `z`. -/
def c10OneBack : Option Graph := do
  let g ← c10Graph
  Tensor.backward g 2

/-- C10: a second backward pass from `z`, no `zero_grad` in between. -/
def c10TwoBack : Option Graph := do
  let g ← c10OneBack
  Tensor.backward g 2

/-! ### Claim theorems -/

/-- C1: the claim that every operation records its operands as parents
fails for `matmul` — the source builds the output as
`Tensor(np.matmul(self.data, other.data))` with the default empty parent
tuple.  For `c = a.matmul(b)` the parent collection of `c` is empty and
graph traversal from `c` reaches only `c` itself, so `zero_grad(c)` does
not act on the operands: after `c.backward()` (whose own closure still
writes into `a.grad`) a subsequent `c.zero_grad()` leaves
`a.grad == [[3.0]]` instead of resetting it. -/
theorem C1_matmul_parents_missing :
    (c1Graph.map fun g => ((nodeAt g 2).prev, traverseChildren g 2))
      = some ([], [2]) ∧
    (do
      let g ← c1Graph
      let g ← Tensor.backward g 2
      some ((nodeAt (Tensor.zero_grad g 2) 0).grad))
      = some (.arr ⟨[1, 1], [3]⟩) :=
  ⟨by decide, by decide⟩

/-- C2: the gradient reducer does not return the target shape when the
target has lower rank than the gradient and contains an interior or
trailing size-1 axis: for `G = (4,2,3)` and `T = (2,1)` the padding loop
clears `keepdims`, so `np.sum` over the broadcast axes `(0, 2)` drops the
trailing size-1 axis too and the result has shape `(2,)`, not `(2,1)`
(the summed entries, 12 each, are the correct counts). -/
theorem C2_reshape_gradient_wrong_shape :
    reshape_gradient (npOnes [4, 2, 3]) [2, 1] = some ⟨[2], [12, 12]⟩ ∧
    ([2] : List Nat) ≠ [2, 1] :=
  ⟨by decide, by decide⟩

/-- C3: `zero_grad` rebinds every traversed node's gradient to the plain
Python int `0`, not to a zero array of the value's shape: for
`x = Tensor([1.0, 2.0])`, after `x.zero_grad()` the gradient is the
scalar `0`, which is not an array of any shape, violating the
`gradient.shape == value.shape` invariant. -/
theorem C3_zero_grad_python_int :
    (nodeAt (Tensor.zero_grad c3Graph 0) 0).grad = .int 0 ∧
    ∀ a : NDArray, GradVal.int 0 ≠ .arr a :=
  ⟨by decide, fun a => by simp⟩

/-- C4: the backward rule of `stack(a, b, axis=1)` indexes the upstream
gradient along axis 0 regardless of the stacking axis: with upstream
gradient `[[1,2],[3,4]]` it adds `[1,2]` (row 0) into `a.grad`, whereas
the slice at index 0 along the stacking axis 1 is `[1,3]`. -/
theorem C4_stack_backward_wrong_axis :
    (do
      let g ← c4Seeded
      let g ← applyRule g 2
      some ((nodeAt g 0).grad)) = some (.arr ⟨[2], [1, 2]⟩) ∧
    takeAlongAxis ⟨[2, 2], [1, 2, 3, 4]⟩ 1 0 = some ⟨[2], [1, 3]⟩ ∧
    (⟨[2], [1, 2]⟩ : NDArray) ≠ ⟨[2], [1, 3]⟩ :=
  ⟨by decide, by decide, by decide⟩

/-- C5: the backward rule of `sum(axis)` is the bare `self.grad += out.grad`,
which relies on broadcasting the reduced gradient back to the original
shape; for `x` of shape `(2,3)` this works for axis 0 (the upstream
`(3,)` gradient broadcasts to `(2,3)`, every entry receiving 1) but fails
with a shape error for the trailing axis 1, because a `(2,)` array does
not broadcast to `(2,3)`. -/
theorem C5_sum_trailing_axis_backward_fails :
    (do
      let g ← Tensor.sum c5X 0 (some 1)
      Tensor.backward g 1) = Option.none ∧
    (do
      let g ← Tensor.sum c5X 0 (some 0)
      let g ← Tensor.backward g 1
      some ((nodeAt g 0).grad)) = some (.arr ⟨[2, 3], [1, 1, 1, 1, 1, 1]⟩) :=
  ⟨by decide, by decide⟩

/-- C6: `step` prepends the root to a traversal that already ends with the
root, so a trainable root is updated twice: for `x = Tensor(3.0,
req_grad=True)` with gradient 1 after `x.backward()`, `x.step(1.0)`
leaves `x.data == 1.0` (two subtractions) instead of the claimed single
update to `2.0`. -/
theorem C6_step_updates_root_twice :
    (do
      let g ← Tensor.backward (leafScalar 3) 0
      let g ← Tensor.step g 0 1
      some ((nodeAt g 0).data)) = some (qscalar 1) ∧
    qscalar 1 ≠ qscalar 2 :=
  ⟨by decide, by decide⟩

/-- C7: `c ** a` for a plain numeric `c` and Tensor `a` never wraps `c`
and never builds a power node: `Tensor.__rpow__` returns `other ** self`,
which dispatches straight back to `__rpow__`, so the evaluation never
terminates (Python raises `RecursionError`) no matter how much recursion
budget it is given. -/
theorem C7_rpow_never_returns :
    ∀ (fuel : Nat) (n : Int) (q : ℚ) (t : NodeId),
      rpowEval fuel (.int n) t = Option.none ∧
      rpowEval fuel (.float q) t = Option.none := by
  intro fuel
  induction fuel with
  | zero => intro n q t; exact ⟨rfl, rfl⟩
  | succ k ih => intro n q t; simpa [rpowEval] using ih n q t

/-- C8: diamond accumulation with de-duplicated parents: for
`x = Tensor(3.0, req_grad=True); y = x + x`, `y.backward()` leaves
`x.grad == 2.0`, and for `x = Tensor(2.0, req_grad=True); y = x * x`,
`y.backward()` leaves `x.grad == 4.0` — both closure statements fire and
accumulate additively even though the parent set holds `x` once. -/
theorem C8_diamond_accumulation :
    (do
      let g ← c8Add
      let g ← Tensor.backward g 1
      some ((nodeAt g 0).grad)) = some (.arr (qscalar 2)) ∧
    (do
      let g ← c8Mul
      let g ← Tensor.backward g 1
      some ((nodeAt g 0).grad)) = some (.arr (qscalar 4)) :=
  ⟨by decide, by decide⟩

/-- C9 counterexample: the claim promises an InvalidArgument error
whenever the target of `cross_entropy_loss` is not a 1-D *index* array,
but the source only asserts rank 1: the 1-D non-integer array `[1/2]` is
not an index array yet passes the call-time check without that error. -/
theorem C9_nonindex_target_no_error :
    ceAssert (.ndarray ⟨[1], [1/2]⟩) = .ok () ∧
    isIndexArray (.ndarray ⟨[1], [1/2]⟩) = false :=
  ⟨rfl, by decide⟩

/-- C9 amended: `power` raises InvalidArgument at call time, before any
node is built, exactly when its exponent is not a plain numeric scalar
(`int`/`float`); `cross_entropy_loss` raises InvalidArgument at call
time exactly when its target is not a 1-D numpy array — the integer
(index) nature of the entries is not checked. -/
theorem C9_error_checks :
    (∀ (g : Graph) (i : NodeId) (e : PyObj),
      Tensor.pow g i e = .error .invalidArgument ↔ isPlainScalar e = false) ∧
    (∀ t : PyObj,
      ceAssert t = .error .invalidArgument ↔ is1DArray t = false) := by
  constructor
  · intro g i e
    cases e <;> simp [Tensor.pow, isPlainScalar]
  · intro t
    cases t with
    | ndarray a => by_cases h : a.shape.length = 1 <;> simp [ceAssert, is1DArray, h]
    | int n => simp [ceAssert, is1DArray]
    | float q => simp [ceAssert, is1DArray]
    | tensor i => simp [ceAssert, is1DArray]
    | str s => simp [ceAssert, is1DArray]

/-- C10 counterexample: in `x = Tensor(3.0, req_grad=True); y = x + x;
z = y + y`, one `z.backward()` leaves `x.grad == 4.0`, but a second
`z.backward()` with no intervening `zero_grad` leaves `x.grad == 12.0`,
three times — not the claimed exactly twice (`8.0`) — the single-pass
value. -/
theorem C10_second_backward_not_double :
    (c10OneBack.map fun g => (nodeAt g 0).grad) = some (.arr (qscalar 4)) ∧
    (c10TwoBack.map fun g => (nodeAt g 0).grad) = some (.arr (qscalar 12)) ∧
    (12 : ℚ) ≠ 2 * 4 :=
  ⟨by decide, by decide, by norm_num⟩

/-- C10 amended: `backward` overwrites only the root gradient (re-seeding
it to ones, so it stays `1.0` after the second pass instead of doubling)
and adds into all other gradients without clearing them; a second pass
therefore doubles the gradient of a direct parent of the root
(`y`: 2.0 → 4.0) but compounds deeper: the already-doubled intermediate
gradient is propagated again, leaving the depth-two node at three times
its single-pass value (`x`: 4.0 → 12.0). -/
theorem C10_backward_overwrite_root_accumulate_rest :
    (c10OneBack.map fun g =>
        ((nodeAt g 0).grad, (nodeAt g 1).grad, (nodeAt g 2).grad))
      = some (.arr (qscalar 4), .arr (qscalar 2), .arr (qscalar 1)) ∧
    (c10TwoBack.map fun g =>
        ((nodeAt g 0).grad, (nodeAt g 1).grad, (nodeAt g 2).grad))
      = some (.arr (qscalar 12), .arr (qscalar 4), .arr (qscalar 1)) :=
  ⟨by decide, by decide⟩
